import Mathlib

/-!
Shallow embedding of the raiko host-side code: the provider / cache engine
(`src/lib/src/host/provider/`), the proof-backend dispatch and request model
(`src/host/src/request.rs`), and the SGX bootstrap entrypoint
(`src/provers/sgx/prover/src/sgx_setup.rs`).

Opaque payload types (blocks, balances, byte strings, hashes, JSON values)
are modelled as `Nat`: the host logic never inspects them, it only stores,
compares and returns them.
-/

instance {ε α : Type} [DecidableEq ε] [DecidableEq α] : DecidableEq (Except ε α) := fun x y =>
  match x, y with
  | .ok a, .ok b =>
    if h : a = b then .isTrue (by rw [h]) else .isFalse (by intro hc; injection hc; contradiction)
  | .ok _, .error _ => .isFalse (by intro hc; exact Except.noConfusion hc)
  | .error _, .ok _ => .isFalse (by intro hc; exact Except.noConfusion hc)
  | .error a, .error b =>
    if h : a = b then .isTrue (by rw [h]) else .isFalse (by intro hc; injection hc; contradiction)

namespace Raiko

/-- Opaque payload: a full block with transactions (`Block<Transaction>`). -/
abbrev FullBlock := Nat
/-- Opaque payload: an EIP-1186 proof response. -/
abbrev ProofResponse := Nat
/-- Opaque payload: a 256-bit unsigned integer (`U256`). -/
abbrev U256 := Nat
/-- Opaque payload: a byte string (`Bytes`). -/
abbrev Bytes := Nat
/-- Opaque payload: a 256-bit hash (`H256`). -/
abbrev H256 := Nat
/-- Opaque payload: a 160-bit address (`H160`). -/
abbrev H160 := Nat
/-- Opaque payload: a transaction. -/
abbrev Transaction := Nat
/-- Opaque payload: a `BlockProposed` event record. -/
abbrev BlockProposed := Nat
/-- Opaque payload: a `GetBlobsResponse` blob bundle. -/
abbrev BlobsResponse := Nat

/-- A partial block (`Block<H256>`): the host reads its `number` field
(an `Option<U64>` in the source) when back-filling the cache from a batch
fetch; the rest is opaque. -/
structure PartialBlock where
  number : Option Nat
  payload : Nat
deriving DecidableEq, Repr

/-- `AccountQuery { block_no, address }` from `provider/mod.rs`. -/
structure AccountQuery where
  block_no : Nat
  address : H160
deriving DecidableEq, Repr

/-- `BlockQuery { block_no }` from `provider/mod.rs` (ordered by `block_no`). -/
structure BlockQuery where
  block_no : Nat
deriving DecidableEq, Repr

/-- `ProofQuery { block_no, address, indices: BTreeSet<H256> }` from
`provider/mod.rs`; the `BTreeSet` is modelled as a `Finset` (set semantics,
structural equality). -/
structure ProofQuery where
  block_no : Nat
  address : H160
  indices : Finset H256
deriving DecidableEq

/-- `StorageQuery { block_no, address, index }` from `provider/mod.rs`. -/
structure StorageQuery where
  block_no : Nat
  address : H160
  index : H256
deriving DecidableEq, Repr

/-- `ProposeQuery { l1_contract, l1_block_no, l2_block_no }`. -/
structure ProposeQuery where
  l1_contract : H160
  l1_block_no : Nat
  l2_block_no : Nat
deriving DecidableEq, Repr

/-! ### Association-list model of `HashMap` and `BTreeMap`

The cache file serialises each map as `Vec<(K, V)>`, so an association list
with insert-replaces-existing semantics is the natural model of `HashMap`.
`BTreeMap` additionally keeps its entries sorted by key. -/

/-- Lookup in an association list (model of `HashMap::get` / `BTreeMap::get`). -/
def alistGet {K V : Type} [DecidableEq K] : List (K × V) → K → Option V
  | [], _ => none
  | (k', v') :: t, k => if k = k' then some v' else alistGet t k

/-- Insert into an association list, replacing an existing binding
(model of `HashMap::insert`). -/
def alistInsert {K V : Type} [DecidableEq K] : List (K × V) → K → V → List (K × V)
  | [], k, v => [(k, v)]
  | (k', v') :: t, k, v =>
    if k = k' then (k, v) :: t else (k', v') :: alistInsert t k v

/-- Insert into a key-sorted association list, replacing an existing binding
(model of `BTreeMap::insert` for `BlockQuery` keys, ordered by `block_no`). -/
def btreeInsert {V : Type} : List (BlockQuery × V) → BlockQuery → V → List (BlockQuery × V)
  | [], k, v => [(k, v)]
  | (k', v') :: t, k, v =>
    if k.block_no < k'.block_no then (k, v) :: (k', v') :: t
    else if k.block_no = k'.block_no then (k, v) :: t
    else (k', v') :: btreeInsert t k v

theorem alistGet_insert_self {K V : Type} [DecidableEq K]
    (m : List (K × V)) (k : K) (v : V) : alistGet (alistInsert m k v) k = some v := by
  induction m with
  | nil => simp [alistInsert, alistGet]
  | cons hd t ih =>
    obtain ⟨k', v'⟩ := hd
    by_cases h : k = k' <;> simp [alistInsert, alistGet, h, ih]

theorem alistGet_btreeInsert_self {V : Type}
    (m : List (BlockQuery × V)) (k : BlockQuery) (v : V) :
    alistGet (btreeInsert m k v) k = some v := by
  induction m with
  | nil => simp [btreeInsert, alistGet]
  | cons hd t ih =>
    obtain ⟨k', v'⟩ := hd
    by_cases hlt : k.block_no < k'.block_no
    · simp [btreeInsert, alistGet, hlt]
    · by_cases heq : k.block_no = k'.block_no
      · simp [btreeInsert, alistGet, hlt, heq]
      · have hne : k ≠ k' := by
          intro h; exact heq (congrArg BlockQuery.block_no h)
        simp [btreeInsert, alistGet, hlt, heq, hne, ih]

theorem btreeInsert_ne_nil {V : Type} (m : List (BlockQuery × V)) (k : BlockQuery) (v : V) :
    btreeInsert m k v ≠ [] := by
  cases m with
  | nil => simp [btreeInsert]
  | cons hd t =>
    obtain ⟨k', v'⟩ := hd
    unfold btreeInsert
    split <;> simp_all
    split <;> simp

/-- Errors of the provider layer (`anyhow::Error` in the source, split by
origin): `noData` is the file provider's "No data for …" error, `ioErr` a
failed file open, `deserErr` a gunzip/JSON decode failure, `rpcErr` an error
surfaced unchanged from the live RPC source, and `panicked` models a Rust
panic (the `unwrap` in the batch back-fill loop). -/
inductive Err where
  | noData : Err
  | ioErr : Err
  | deserErr : Err
  | rpcErr : Nat → Err
  | panicked : Err
deriving DecidableEq, Repr

/-- `FileProvider` from `file_provider.rs`: one map per response kind, plus
the (serde-skipped) `file_path` and `dirty` fields. `HashMap`s are modelled
as association lists, the `BTreeMap` of partial blocks as a key-sorted
association list. -/
structure FileProvider where
  file_path : String
  dirty : Bool
  full_blocks : List (BlockQuery × FullBlock)
  partial_blocks : List (BlockQuery × PartialBlock)
  proofs : List (ProofQuery × ProofResponse)
  transaction_count : List (AccountQuery × U256)
  balance : List (AccountQuery × U256)
  code : List (AccountQuery × Bytes)
  storage : List (StorageQuery × H256)
  propose : Option (Transaction × BlockProposed)
  blobs : List (Nat × BlobsResponse)
deriving DecidableEq

/-- `FileProvider::empty`. -/
def FileProvider.empty (file_path : String) : FileProvider :=
  { file_path := file_path
    dirty := false
    full_blocks := []
    partial_blocks := []
    proofs := []
    transaction_count := []
    balance := []
    code := []
    storage := []
    propose := none
    blobs := [] }

/-! ### `impl Provider for FileProvider` (the read side) -/

/-- `FileProvider::get_full_block`. -/
def FileProvider.get_full_block (p : FileProvider) (query : BlockQuery) :
    Except Err FullBlock :=
  match alistGet p.full_blocks query with
  | some val => .ok val
  | none => .error .noData

/-- `FileProvider::get_partial_block`. -/
def FileProvider.get_partial_block (p : FileProvider) (query : BlockQuery) :
    Except Err PartialBlock :=
  match alistGet p.partial_blocks query with
  | some val => .ok val
  | none => .error .noData

/-- `FileProvider::get_proof`. -/
def FileProvider.get_proof (p : FileProvider) (query : ProofQuery) :
    Except Err ProofResponse :=
  match alistGet p.proofs query with
  | some val => .ok val
  | none => .error .noData

/-- `FileProvider::get_transaction_count`. -/
def FileProvider.get_transaction_count (p : FileProvider) (query : AccountQuery) :
    Except Err U256 :=
  match alistGet p.transaction_count query with
  | some val => .ok val
  | none => .error .noData

/-- `FileProvider::get_balance`. -/
def FileProvider.get_balance (p : FileProvider) (query : AccountQuery) :
    Except Err U256 :=
  match alistGet p.balance query with
  | some val => .ok val
  | none => .error .noData

/-- `FileProvider::get_code`. -/
def FileProvider.get_code (p : FileProvider) (query : AccountQuery) :
    Except Err Bytes :=
  match alistGet p.code query with
  | some val => .ok val
  | none => .error .noData

/-- `FileProvider::get_storage`. -/
def FileProvider.get_storage (p : FileProvider) (query : StorageQuery) :
    Except Err H256 :=
  match alistGet p.storage query with
  | some val => .ok val
  | none => .error .noData

/-- `FileProvider::get_propose`: the store keeps a single optional propose
record and the lookup ignores the query key (it is only used in the error
message in the source). -/
def FileProvider.get_propose (p : FileProvider) (_query : ProposeQuery) :
    Except Err (Transaction × BlockProposed) :=
  match p.propose with
  | some val => .ok val
  | none => .error .noData

/-- `FileProvider::batch_get_partial_blocks`: ignores the query key entirely;
fails when the partial-block map is empty, otherwise returns every cached
partial block (in key order, as `BTreeMap::values` does). -/
def FileProvider.batch_get_partial_blocks (p : FileProvider) (_query : BlockQuery) :
    Except Err (List PartialBlock) :=
  if p.partial_blocks.isEmpty then .error .noData
  else .ok (p.partial_blocks.map Prod.snd)

/-- `FileProvider::get_blob_data`. -/
def FileProvider.get_blob_data (p : FileProvider) (block_id : Nat) :
    Except Err BlobsResponse :=
  match alistGet p.blobs block_id with
  | some val => .ok val
  | none => .error .noData

/-! ### `impl MutProvider for FileProvider` (the write side) -/

/-- `FileProvider::insert_full_block`. -/
def FileProvider.insert_full_block (p : FileProvider) (query : BlockQuery)
    (val : FullBlock) : FileProvider :=
  { p with full_blocks := alistInsert p.full_blocks query val, dirty := true }

/-- `FileProvider::insert_partial_block`. -/
def FileProvider.insert_partial_block (p : FileProvider) (query : BlockQuery)
    (val : PartialBlock) : FileProvider :=
  { p with partial_blocks := btreeInsert p.partial_blocks query val, dirty := true }

/-- `FileProvider::insert_proof`. -/
def FileProvider.insert_proof (p : FileProvider) (query : ProofQuery)
    (val : ProofResponse) : FileProvider :=
  { p with proofs := alistInsert p.proofs query val, dirty := true }

/-- `FileProvider::insert_transaction_count`. -/
def FileProvider.insert_transaction_count (p : FileProvider) (query : AccountQuery)
    (val : U256) : FileProvider :=
  { p with transaction_count := alistInsert p.transaction_count query val, dirty := true }

/-- `FileProvider::insert_balance`. -/
def FileProvider.insert_balance (p : FileProvider) (query : AccountQuery)
    (val : U256) : FileProvider :=
  { p with balance := alistInsert p.balance query val, dirty := true }

/-- `FileProvider::insert_code`. -/
def FileProvider.insert_code (p : FileProvider) (query : AccountQuery)
    (val : Bytes) : FileProvider :=
  { p with code := alistInsert p.code query val, dirty := true }

/-- `FileProvider::insert_storage`. -/
def FileProvider.insert_storage (p : FileProvider) (query : StorageQuery)
    (val : H256) : FileProvider :=
  { p with storage := alistInsert p.storage query val, dirty := true }

/-- `FileProvider::insert_propose`: overwrites the single optional record,
ignoring the query key. -/
def FileProvider.insert_propose (p : FileProvider) (_query : ProposeQuery)
    (val : Transaction × BlockProposed) : FileProvider :=
  { p with propose := some val, dirty := true }

/-- `FileProvider::insert_blob`. -/
def FileProvider.insert_blob (p : FileProvider) (block_id : Nat)
    (val : BlobsResponse) : FileProvider :=
  { p with blobs := alistInsert p.blobs block_id val, dirty := true }

/-! ### The cache file on disk

A path on disk either has no file, a corrupt file (fails to gunzip or
deserialize), or a valid serialized cache document. Serde skips `file_path`
and `dirty`, so the serialized form is the provider with those two fields
at their defaults; `read_from_file` restores them afterwards. -/

/-- Content found at one path: absent, corrupt, or a valid cache document. -/
inductive FileContent where
  | corrupt : FileContent
  | valid : FileProvider → FileContent
deriving DecidableEq

/-- The file system, as a map from paths to contents. -/
def Disk := String → Option FileContent

/-- Serialization of a `FileProvider` (serde skips `file_path` and `dirty`,
which deserialize to their defaults). -/
def FileProvider.serialize (p : FileProvider) : FileProvider :=
  { p with file_path := "", dirty := false }

/-- Write one path of the disk. -/
def Disk.write (d : Disk) (path : String) (c : FileContent) : Disk :=
  fun q => if q = path then some c else d q

/-- `FileProvider::read_from_file`: open + gunzip + deserialize, then restore
`file_path` and clear `dirty`. A missing file is an open error, a corrupt one
a decode error; both are propagated to the caller. -/
def FileProvider.read_from_file (disk : Disk) (file_path : String) :
    Except Err FileProvider :=
  match disk file_path with
  | none => .error .ioErr
  | some .corrupt => .error .deserErr
  | some (.valid out) => .ok { out with file_path := file_path, dirty := false }

/-- `FileProvider::save_to_file`: when `dirty`, serialize and write the whole
store to `file_path`; otherwise do nothing. The receiver is `&self`, so the
in-memory store is returned unchanged. -/
def FileProvider.save_to_file (p : FileProvider) (file_path : String) (disk : Disk) :
    FileProvider × Disk :=
  if p.dirty then (p, disk.write file_path (.valid p.serialize))
  else (p, disk)

/-- `<FileProvider as Provider>::save`: `save_to_file` at the provider's own
path. -/
def FileProvider.save (p : FileProvider) (disk : Disk) : FileProvider × Disk :=
  p.save_to_file p.file_path disk

/-- `new_file_provider` from `provider/mod.rs`: reads the cache file and
propagates any read error with `?`. -/
def new_file_provider (disk : Disk) (file_path : String) : Except Err FileProvider :=
  FileProvider.read_from_file disk file_path

/-! ### The live RPC source and the hybrid provider

`rpc_provider.rs` is the external Live Source; it is modelled as a record of
response oracles, one per query operation. The hybrid provider's methods
additionally report the list of live-source calls they made, so that
"exactly one call" and "zero calls" are statable. -/

/-- The live source (`RpcProvider`): one response oracle per operation. -/
structure RpcProvider where
  full_block : BlockQuery → Except Err FullBlock
  partial_block : BlockQuery → Except Err PartialBlock
  proof : ProofQuery → Except Err ProofResponse
  transaction_count : AccountQuery → Except Err U256
  balance : AccountQuery → Except Err U256
  code : AccountQuery → Except Err Bytes
  storage : StorageQuery → Except Err H256
  propose : ProposeQuery → Except Err (Transaction × BlockProposed)
  batch_partial_blocks : BlockQuery → Except Err (List PartialBlock)
  blob_data : Nat → Except Err BlobsResponse

/-- One observed call to the live source, with the key it was made for. -/
inductive RpcCall where
  | fullBlock : BlockQuery → RpcCall
  | partialBlock : BlockQuery → RpcCall
  | proofCall : ProofQuery → RpcCall
  | txCount : AccountQuery → RpcCall
  | balanceCall : AccountQuery → RpcCall
  | codeCall : AccountQuery → RpcCall
  | storageCall : StorageQuery → RpcCall
  | proposeCall : ProposeQuery → RpcCall
  | batchPartialBlocks : BlockQuery → RpcCall
  | blobData : Nat → RpcCall
deriving DecidableEq

/-- `CachedRpcProvider`: a file-backed cache store composed in front of the
live RPC source. -/
structure CachedRpcProvider where
  cache : FileProvider
  rpc : RpcProvider

/-- `CachedRpcProvider::new`: fall back to an empty cache store when the
cache file cannot be read, then construct the RPC source (whose own
construction result is passed in, and propagated with `?`). -/
def CachedRpcProvider.new (disk : Disk) (cache_path : String)
    (rpc_new : Except Err RpcProvider) : Except Err CachedRpcProvider :=
  let cache :=
    match FileProvider.read_from_file disk cache_path with
    | .ok p => p
    | .error _ => FileProvider.empty cache_path
  match rpc_new with
  | .error e => .error e
  | .ok rpc => .ok ⟨cache, rpc⟩

/-- Each hybrid query returns its result, the updated cache store (the only
state the Rust methods mutate), and the live-source calls it made. -/
abbrev HybridOut (β : Type) := Except Err β × FileProvider × List RpcCall

/-- `<CachedRpcProvider as Provider>::get_full_block`. -/
def CachedRpcProvider.get_full_block (p : CachedRpcProvider) (query : BlockQuery) :
    HybridOut FullBlock :=
  match p.cache.get_full_block query with
  | .ok v => (.ok v, p.cache, [])
  | .error _ =>
    match p.rpc.full_block query with
    | .error e => (.error e, p.cache, [.fullBlock query])
    | .ok out => (.ok out, p.cache.insert_full_block query out, [.fullBlock query])

/-- `<CachedRpcProvider as Provider>::get_partial_block`. -/
def CachedRpcProvider.get_partial_block (p : CachedRpcProvider) (query : BlockQuery) :
    HybridOut PartialBlock :=
  match p.cache.get_partial_block query with
  | .ok v => (.ok v, p.cache, [])
  | .error _ =>
    match p.rpc.partial_block query with
    | .error e => (.error e, p.cache, [.partialBlock query])
    | .ok out => (.ok out, p.cache.insert_partial_block query out, [.partialBlock query])

/-- `<CachedRpcProvider as Provider>::get_proof`. -/
def CachedRpcProvider.get_proof (p : CachedRpcProvider) (query : ProofQuery) :
    HybridOut ProofResponse :=
  match p.cache.get_proof query with
  | .ok v => (.ok v, p.cache, [])
  | .error _ =>
    match p.rpc.proof query with
    | .error e => (.error e, p.cache, [.proofCall query])
    | .ok out => (.ok out, p.cache.insert_proof query out, [.proofCall query])

/-- `<CachedRpcProvider as Provider>::get_transaction_count`. -/
def CachedRpcProvider.get_transaction_count (p : CachedRpcProvider)
    (query : AccountQuery) : HybridOut U256 :=
  match p.cache.get_transaction_count query with
  | .ok v => (.ok v, p.cache, [])
  | .error _ =>
    match p.rpc.transaction_count query with
    | .error e => (.error e, p.cache, [.txCount query])
    | .ok out => (.ok out, p.cache.insert_transaction_count query out, [.txCount query])

/-- `<CachedRpcProvider as Provider>::get_balance`. -/
def CachedRpcProvider.get_balance (p : CachedRpcProvider) (query : AccountQuery) :
    HybridOut U256 :=
  match p.cache.get_balance query with
  | .ok v => (.ok v, p.cache, [])
  | .error _ =>
    match p.rpc.balance query with
    | .error e => (.error e, p.cache, [.balanceCall query])
    | .ok out => (.ok out, p.cache.insert_balance query out, [.balanceCall query])

/-- `<CachedRpcProvider as Provider>::get_code`. -/
def CachedRpcProvider.get_code (p : CachedRpcProvider) (query : AccountQuery) :
    HybridOut Bytes :=
  match p.cache.get_code query with
  | .ok v => (.ok v, p.cache, [])
  | .error _ =>
    match p.rpc.code query with
    | .error e => (.error e, p.cache, [.codeCall query])
    | .ok out => (.ok out, p.cache.insert_code query out, [.codeCall query])

/-- `<CachedRpcProvider as Provider>::get_storage`. -/
def CachedRpcProvider.get_storage (p : CachedRpcProvider) (query : StorageQuery) :
    HybridOut H256 :=
  match p.cache.get_storage query with
  | .ok v => (.ok v, p.cache, [])
  | .error _ =>
    match p.rpc.storage query with
    | .error e => (.error e, p.cache, [.storageCall query])
    | .ok out => (.ok out, p.cache.insert_storage query out, [.storageCall query])

/-- `<CachedRpcProvider as Provider>::get_propose`. -/
def CachedRpcProvider.get_propose (p : CachedRpcProvider) (query : ProposeQuery) :
    HybridOut (Transaction × BlockProposed) :=
  match p.cache.get_propose query with
  | .ok v => (.ok v, p.cache, [])
  | .error _ =>
    match p.rpc.propose query with
    | .error e => (.error e, p.cache, [.proposeCall query])
    | .ok out => (.ok out, p.cache.insert_propose query out, [.proposeCall query])

/-- `<CachedRpcProvider as Provider>::get_blob_data`. -/
def CachedRpcProvider.get_blob_data (p : CachedRpcProvider) (block_id : Nat) :
    HybridOut BlobsResponse :=
  match p.cache.get_blob_data block_id with
  | .ok v => (.ok v, p.cache, [])
  | .error _ =>
    match p.rpc.blob_data block_id with
    | .error e => (.error e, p.cache, [.blobData block_id])
    | .ok out => (.ok out, p.cache.insert_blob block_id out, [.blobData block_id])

/-- The back-fill loop of the hybrid `batch_get_partial_blocks`: insert each
fetched block keyed by `block.number.unwrap()`; `none` means the `unwrap`
panics, modelled as failure of the whole loop. -/
def backfillPartialBlocks (cache : FileProvider) :
    List PartialBlock → Option FileProvider
  | [] => some cache
  | block :: rest =>
    match block.number with
    | none => none
    | some n => backfillPartialBlocks (cache.insert_partial_block ⟨n⟩ block) rest

/-- `<CachedRpcProvider as Provider>::batch_get_partial_blocks`: serve from
cache when the cache answers, otherwise fetch the batch from the live source
and back-fill every returned block into the cache. -/
def CachedRpcProvider.batch_get_partial_blocks (p : CachedRpcProvider)
    (query : BlockQuery) : HybridOut (List PartialBlock) :=
  match p.cache.batch_get_partial_blocks query with
  | .ok v => (.ok v, p.cache, [])
  | .error _ =>
    match p.rpc.batch_partial_blocks query with
    | .error e => (.error e, p.cache, [.batchPartialBlocks query])
    | .ok out =>
      match backfillPartialBlocks p.cache out with
      | none => (.error .panicked, p.cache, [.batchPartialBlocks query])
      | some cache => (.ok out, cache, [.batchPartialBlocks query])

/-! ## Proof-backend dispatch and the request model (`src/host/src/request.rs`) -/

/-- Opaque JSON value (`serde_json::Value`) carried as backend configuration. -/
abbrev Config := Nat
/-- Opaque network identifier (parsed from a string by an external parser). -/
abbrev Network := Nat
/-- Opaque `B256` value (parsed from a string). -/
abbrev B256 := Nat
/-- Opaque `Address` value (parsed from a string). -/
abbrev Address := Nat

/-- Errors of the host request layer (`HostError` variants the request code
produces). -/
inductive HostError where
  | invalidProofType : String → HostError
  | invalidRequestConfig : String → HostError
deriving DecidableEq, Repr

/-- The closed set of proof-type identifiers. -/
inductive ProofType where
  | Native : ProofType
  | Sp1 : ProofType
  | Sgx : ProofType
  | Risc0 : ProofType
deriving DecidableEq, Repr

/-- `impl Display for ProofType`. -/
def ProofType.display : ProofType → String
  | .Native => "native"
  | .Sp1 => "sp1"
  | .Sgx => "sgx"
  | .Risc0 => "risc0"

/-- Character-wise lowercasing (Rust `str::to_lowercase`). -/
def strToLower (s : String) : String := ⟨s.data.map Char.toLower⟩

/-- Strip leading and trailing whitespace (Rust `str::trim`). -/
def strTrim (s : String) : String :=
  ⟨((s.data.dropWhile Char.isWhitespace).reverse.dropWhile Char.isWhitespace).reverse⟩

/-- `impl FromStr for ProofType`: trim, lowercase, match the canonical
name, otherwise an "invalid proof type" error. -/
def ProofType.from_str (s : String) : Except HostError ProofType :=
  match strToLower (strTrim s) with
  | "native" => .ok .Native
  | "sp1" => .ok .Sp1
  | "sgx" => .ok .Sgx
  | "risc0" => .ok .Risc0
  | _ => .error (.invalidProofType s)

/-- Which optional backends were compiled into this build (the `sp1`,
`risc0` and `sgx` cargo features; the native backend is always built). -/
structure Features where
  sp1 : Bool
  risc0 : Bool
  sgx : Bool
deriving DecidableEq, Repr

/-- A constructed prover instance (`Box<dyn Prover>`): one constructor per
backend; the SGX constructor captures the configuration it was given. -/
inductive ProverInstance where
  | nativeProver : ProverInstance
  | sp1Prover : ProverInstance
  | risc0Prover : ProverInstance
  | sgxProver : Config → ProverInstance
deriving DecidableEq, Repr

/-- `ProofType::get_prover`: select the constructor for the requested
identifier; when the matching cargo feature is absent the code reaches
`panic!("Feature not supported")`, modelled as an error carrying the
requested proof type. The feature set is a build-time parameter. -/
def ProofType.get_prover (pt : ProofType) (feat : Features) (conf : Config) :
    Except ProofType ProverInstance :=
  match pt with
  | .Native => .ok .nativeProver
  | .Sp1 => if feat.sp1 then .ok .sp1Prover else .error .Sp1
  | .Risc0 => if feat.risc0 then .ok .risc0Prover else .error .Risc0
  | .Sgx => if feat.sgx then .ok (.sgxProver conf) else .error .Sgx

/-- The backend a constructed prover instance belongs to. -/
def ProverInstance.backend : ProverInstance → ProofType
  | .nativeProver => .Native
  | .sp1Prover => .Sp1
  | .risc0Prover => .Risc0
  | .sgxProver _ => .Sgx

/-- Whether the backend of a proof type was compiled into the build. -/
def Features.available (feat : Features) : ProofType → Bool
  | .Native => true
  | .Sp1 => feat.sp1
  | .Risc0 => feat.risc0
  | .Sgx => feat.sgx

/-- `ProverSpecificOpts`: the per-backend optional parameter blobs. -/
structure ProverSpecificOpts where
  native : Option Config
  sgx : Option Config
  sp1 : Option Config
  risc0 : Option Config
deriving DecidableEq, Repr

/-- `impl From<ProverSpecificOpts> for HashMap<String, Value>`: keep exactly
the present entries, named by backend. -/
def ProverSpecificOpts.toMap (opts : ProverSpecificOpts) : List (String × Config) :=
  [("native", opts.native), ("sgx", opts.sgx), ("sp1", opts.sp1), ("risc0", opts.risc0)]
    |>.filterMap fun p => p.2.map fun v => (p.1, v)

/-- `ProofRequestOpt`: a partial proof request, every field optional. -/
structure ProofRequestOpt where
  block_number : Option Nat
  rpc : Option String
  l1_rpc : Option String
  beacon_rpc : Option String
  network : Option String
  l1_network : Option String
  graffiti : Option String
  prover : Option String
  proof_type : Option String
  prover_args : ProverSpecificOpts
deriving DecidableEq, Repr

/-- `ProofRequest`: the validated, fully populated request. -/
structure ProofRequest where
  block_number : Nat
  rpc : String
  l1_rpc : String
  beacon_rpc : String
  network : Network
  l1_network : String
  graffiti : B256
  prover : Address
  proof_type : ProofType
  prover_args : List (String × Config)
deriving DecidableEq, Repr

/-- `Option::ok_or` with an `InvalidRequestConfig("Missing …")` error. -/
def orMissing {α : Type} (o : Option α) (msg : String) : Except HostError α :=
  match o with
  | some a => .ok a
  | none => .error (.invalidRequestConfig msg)

/-- A `parse().map_err(…)` step with an `InvalidRequestConfig("Invalid …")`
error. -/
def orInvalid {α : Type} (o : Option α) (msg : String) : Except HostError α :=
  match o with
  | some a => .ok a
  | none => .error (.invalidRequestConfig msg)

/-- Rust's `?` operator on a `Result`: propagate the error, otherwise
continue with the value. -/
def tryOp {ε α β : Type} (x : Except ε α) (f : α → Except ε β) : Except ε β :=
  match x with
  | .error e => .error e
  | .ok a => f a

/-- `impl TryFrom<ProofRequestOpt> for ProofRequest`: each field is unwrapped
(`ok_or`) and, where needed, parsed, in declaration order, short-circuiting
on the first error. The `Network`, graffiti (`B256`) and prover (`Address`)
string parsers live outside this repository and are passed as oracles;
`proof_type` uses the repository's own `ProofType::from_str`. -/
def ProofRequest.try_from
    (parse_network parse_graffiti parse_prover : String → Option Nat)
    (value : ProofRequestOpt) : Except HostError ProofRequest :=
  tryOp (orMissing value.block_number "Missing block number") fun block_number =>
  tryOp (orMissing value.rpc "Missing rpc") fun rpc =>
  tryOp (orMissing value.l1_rpc "Missing l1_rpc") fun l1_rpc =>
  tryOp (orMissing value.beacon_rpc "Missing beacon_rpc") fun beacon_rpc =>
  tryOp (orMissing value.network "Missing network") fun network_str =>
  tryOp (orInvalid (parse_network network_str) "Invalid network") fun network =>
  tryOp (orMissing value.l1_network "Missing l1_network") fun l1_network =>
  tryOp (orMissing value.graffiti "Missing graffiti") fun graffiti_str =>
  tryOp (orInvalid (parse_graffiti graffiti_str) "Invalid graffiti") fun graffiti =>
  tryOp (orMissing value.prover "Missing prover") fun prover_str =>
  tryOp (orInvalid (parse_prover prover_str) "Invalid prover") fun prover =>
  tryOp (orMissing value.proof_type "Missing proof_type") fun proof_type_str =>
  tryOp
    (match ProofType.from_str proof_type_str with
     | .error _ => .error (.invalidRequestConfig "Invalid proof_type")
     | .ok t => .ok t) fun proof_type =>
    .ok { block_number := block_number
          rpc := rpc
          l1_rpc := l1_rpc
          beacon_rpc := beacon_rpc
          network := network
          l1_network := l1_network
          graffiti := graffiti
          prover := prover
          proof_type := proof_type
          prover_args := value.prover_args.toMap }

/-- One probe step of the spec-side field scan: if the field is absent,
report the given error, otherwise continue. -/
def probe {A : Type} (o : Option A) (e : HostError)
    (rest : A → Option HostError) : Option HostError :=
  match o with
  | none => some e
  | some a => rest a

/-- Modelled from the spec: the first problematic field of a partial request
in declaration order — the first missing required field, or the first
present-but-unparsable one, whichever the field order reaches first;
`none` when every required field is present and parses. -/
def specFirstProblem
    (parse_network parse_graffiti parse_prover : String → Option Nat)
    (value : ProofRequestOpt) : Option HostError :=
  probe value.block_number (.invalidRequestConfig "Missing block number") fun _ =>
  probe value.rpc (.invalidRequestConfig "Missing rpc") fun _ =>
  probe value.l1_rpc (.invalidRequestConfig "Missing l1_rpc") fun _ =>
  probe value.beacon_rpc (.invalidRequestConfig "Missing beacon_rpc") fun _ =>
  probe value.network (.invalidRequestConfig "Missing network") fun ns =>
  probe (parse_network ns) (.invalidRequestConfig "Invalid network") fun _ =>
  probe value.l1_network (.invalidRequestConfig "Missing l1_network") fun _ =>
  probe value.graffiti (.invalidRequestConfig "Missing graffiti") fun gs =>
  probe (parse_graffiti gs) (.invalidRequestConfig "Invalid graffiti") fun _ =>
  probe value.prover (.invalidRequestConfig "Missing prover") fun ps =>
  probe (parse_prover ps) (.invalidRequestConfig "Invalid prover") fun _ =>
  probe value.proof_type (.invalidRequestConfig "Missing proof_type") fun ts =>
  match ProofType.from_str ts with
  | .error _ => some (.invalidRequestConfig "Invalid proof_type")
  | .ok _ => none

/-! ## SGX bootstrap entrypoint (`src/provers/sgx/prover/src/sgx_setup.rs`)

`sgx_setup` is modelled as a function of the outcomes of its effectful
steps (each a `Bool`: does the step succeed?), returning the overall
result, the ordered trace of effects performed, and whether the completion
marker file (`registered`) exists afterwards. -/

/-- Observable effects of one `sgx_setup` run. `checkLaunch` is the enclave
launch in check mode, `bootstrapLaunch` the key-generation launch,
`markerRemove`/`markerCreate` the removal/creation of the `registered`
marker file, `registerCall` the on-chain registration, `configWrite` the
write of the instance id into the config file. -/
inductive SgxEvent where
  | checkLaunch : SgxEvent
  | bootstrapLaunch : SgxEvent
  | markerRemove : SgxEvent
  | registerCall : SgxEvent
  | configWrite : SgxEvent
  | markerCreate : SgxEvent
deriving DecidableEq, Repr

/-- `sgx_setup`, over the outcomes of its steps:
`checkOk` — `check_bootstrap` succeeds; `markerExists` — the `registered`
marker file exists at entry; `autoReg` — registration parameters were
supplied (`sgx_auto_reg_opt.is_some()`); `bootstrapOk` — the key-generation
launch succeeds; `removeOk` — removing an existing marker file succeeds
(a `NotFound` on a missing marker is tolerated by the source);
`registerOk` — the on-chain registration succeeds; `configReadOk` — the
config file opens and parses; `configWriteOk` — writing it back succeeds.
Returns (result, trace of effects, marker exists afterwards). -/
def sgx_setup (checkOk markerExists autoReg bootstrapOk removeOk registerOk
    configReadOk configWriteOk : Bool) :
    Except Unit Unit × List SgxEvent × Bool :=
  let need_init := !checkOk || (autoReg && !markerExists)
  if need_init then
    if !bootstrapOk then (.error (), [.checkLaunch, .bootstrapLaunch], markerExists)
    else if markerExists && !removeOk then
      (.error (), [.checkLaunch, .bootstrapLaunch], markerExists)
    else
      let evs := [SgxEvent.checkLaunch, SgxEvent.bootstrapLaunch] ++
        (if markerExists then [SgxEvent.markerRemove] else [])
      if autoReg then
        if !registerOk then (.error (), evs ++ [.registerCall], false)
        else if !configReadOk then (.error (), evs ++ [.registerCall], false)
        else if !configWriteOk then
          (.error (), evs ++ [.registerCall, .configWrite], false)
        else (.ok (), evs ++ [.registerCall, .configWrite, .markerCreate], true)
      else (.ok (), evs, false)
  else (.ok (), [.checkLaunch], markerExists)

/-! ## Insert sequences over the cache store (for the round-trip property) -/

/-- One `MutProvider` insert operation, with its key and value. -/
inductive InsertOp where
  | fullBlock : BlockQuery → FullBlock → InsertOp
  | partialBlock : BlockQuery → PartialBlock → InsertOp
  | proofIns : ProofQuery → ProofResponse → InsertOp
  | txCount : AccountQuery → U256 → InsertOp
  | balanceIns : AccountQuery → U256 → InsertOp
  | codeIns : AccountQuery → Bytes → InsertOp
  | storageIns : StorageQuery → H256 → InsertOp
  | proposeIns : ProposeQuery → Transaction × BlockProposed → InsertOp
  | blobIns : Nat → BlobsResponse → InsertOp

/-- Apply one insert operation to the store. -/
def applyInsert (p : FileProvider) : InsertOp → FileProvider
  | .fullBlock q v => p.insert_full_block q v
  | .partialBlock q v => p.insert_partial_block q v
  | .proofIns q v => p.insert_proof q v
  | .txCount q v => p.insert_transaction_count q v
  | .balanceIns q v => p.insert_balance q v
  | .codeIns q v => p.insert_code q v
  | .storageIns q v => p.insert_storage q v
  | .proposeIns q v => p.insert_propose q v
  | .blobIns q v => p.insert_blob q v

/-- Apply a sequence of insert operations, left to right. -/
def applyInserts (p : FileProvider) (ops : List InsertOp) : FileProvider :=
  ops.foldl applyInsert p

theorem applyInsert_dirty (p : FileProvider) (op : InsertOp) :
    (applyInsert p op).dirty = true := by
  cases op <;>
    simp [applyInsert, FileProvider.insert_full_block, FileProvider.insert_partial_block,
      FileProvider.insert_proof, FileProvider.insert_transaction_count,
      FileProvider.insert_balance, FileProvider.insert_code, FileProvider.insert_storage,
      FileProvider.insert_propose, FileProvider.insert_blob]

theorem applyInsert_file_path (p : FileProvider) (op : InsertOp) :
    (applyInsert p op).file_path = p.file_path := by
  cases op <;>
    simp [applyInsert, FileProvider.insert_full_block, FileProvider.insert_partial_block,
      FileProvider.insert_proof, FileProvider.insert_transaction_count,
      FileProvider.insert_balance, FileProvider.insert_code, FileProvider.insert_storage,
      FileProvider.insert_propose, FileProvider.insert_blob]

theorem applyInserts_dirty (p : FileProvider) (ops : List InsertOp) (h : ops ≠ []) :
    (applyInserts p ops).dirty = true := by
  induction ops generalizing p with
  | nil => exact absurd rfl h
  | cons op rest ih =>
    cases rest with
    | nil => simpa [applyInserts] using applyInsert_dirty p op
    | cons op' rest' => simpa [applyInserts] using ih (applyInsert p op) (by simp)

/-! ## Building a `ProofQuery` from a list of slot indices -/

/-- Build the `BTreeSet` of slot indices by inserting the elements of a list
one at a time into an empty set. -/
def indexSetOfList (l : List H256) : Finset H256 :=
  l.foldl (fun s x => insert x s) ∅

/-- Build a `ProofQuery` from a block number, an address, and the slot
indices in the order they are inserted. -/
def ProofQuery.build (block_no : Nat) (address : H160) (indices : List H256) :
    ProofQuery :=
  { block_no := block_no, address := address, indices := indexSetOfList indices }

/-- One step of a structural hash (`DefaultHasher`-style field-by-field
combination). -/
def hashCombine (a b : Nat) : Nat := a * 1000003 + b + 1

/-- Structural hash of a `ProofQuery`, mirroring `#[derive(Hash)]`: the
fields are fed to the hasher in order, the `BTreeSet` contributing its
elements in sorted order. -/
def ProofQuery.hash (q : ProofQuery) : Nat :=
  (q.indices.sort (· ≤ ·)).foldl hashCombine (hashCombine q.block_no q.address)

theorem foldl_insert_eq_union (l : List H256) (s : Finset H256) :
    l.foldl (fun s x => insert x s) s = s ∪ l.toFinset := by
  induction l generalizing s with
  | nil => simp
  | cons a t ih =>
    simp only [List.foldl_cons, List.toFinset_cons, ih (insert a s),
      Finset.insert_union, Finset.union_insert]

theorem indexSetOfList_eq_toFinset (l : List H256) :
    indexSetOfList l = l.toFinset := by
  simp [indexSetOfList, foldl_insert_eq_union]

/-- Concrete live source used to instantiate theorems on closed inputs. -/
def testRpc : RpcProvider where
  full_block := fun _ => .ok 100
  partial_block := fun q => .ok ⟨some q.block_no, 5⟩
  proof := fun _ => .ok 7
  transaction_count := fun _ => .ok 3
  balance := fun _ => .ok 4
  code := fun _ => .ok 6
  storage := fun _ => .ok 8
  propose := fun _ => .ok (1, 2)
  batch_partial_blocks := fun _ => .ok []
  blob_data := fun _ => .ok 9

/-! ## Claims -/

/-- C10: for every block number, address, and finite set of slot indices,
two `ProofQuery` values built from that set in different insertion orders
compare equal and hash identically. -/
theorem C10_proof_query_set_semantics (bn : Nat) (addr : H160) (l1 l2 : List H256)
    (h : List.Perm l1 l2) :
    ProofQuery.build bn addr l1 = ProofQuery.build bn addr l2 ∧
    ProofQuery.hash (ProofQuery.build bn addr l1) =
      ProofQuery.hash (ProofQuery.build bn addr l2) := by
  have he : indexSetOfList l1 = indexSetOfList l2 := by
    rw [indexSetOfList_eq_toFinset, indexSetOfList_eq_toFinset]
    exact List.toFinset_eq_of_perm _ _ h
  refine ⟨?_, ?_⟩
  · simp [ProofQuery.build, he]
  · simp [ProofQuery.build, ProofQuery.hash, he]

/-- Witness for C10 at the concrete insertion orders `[1, 2]` and `[2, 1]`. -/
theorem C10_witness :
    ProofQuery.build 5 7 [1, 2] = ProofQuery.build 5 7 [2, 1] ∧
    ProofQuery.hash (ProofQuery.build 5 7 [1, 2]) =
      ProofQuery.hash (ProofQuery.build 5 7 [2, 1]) :=
  C10_proof_query_set_semantics 5 7 [1, 2] [2, 1] (by decide)

/-- C8: requesting a prover for a proof type whose backend was not compiled
into the build fails at dispatch (the `panic!` path) with the requested type,
and a successfully constructed prover always belongs to the requested
backend — no silent substitution. -/
theorem C8_backend_unavailable (feat : Features) (pt : ProofType) (conf : Config) :
    (feat.available pt = false → pt.get_prover feat conf = .error pt) ∧
    (∀ inst, pt.get_prover feat conf = .ok inst →
      feat.available pt = true ∧ inst.backend = pt) := by
  obtain ⟨s, r, g⟩ := feat
  cases pt <;> cases s <;> cases r <;> cases g <;>
    simp [Features.available, ProofType.get_prover, ProverInstance.backend]

/-- Witness for C8: with no optional backend compiled in, `sp1` dispatch
fails; the native backend constructs a native prover. -/
theorem C8_witness :
    ProofType.get_prover .Sp1 ⟨false, false, false⟩ 0 = .error .Sp1 ∧
    (Features.available ⟨false, false, false⟩ .Native = true ∧
      ProverInstance.backend .nativeProver = .Native) :=
  ⟨(C8_backend_unavailable ⟨false, false, false⟩ .Sp1 0).1 rfl,
   (C8_backend_unavailable ⟨false, false, false⟩ .Native 0).2 .nativeProver rfl⟩

/-- C6 counterexample: the completion marker exists at entry, but the
enclave check fails (`checkOk = false`); `sgx_setup` nevertheless relaunches
the enclave in key-generation mode and re-registers on-chain, because
`need_init` is true whenever `check_bootstrap` fails, marker or not. -/
theorem C6_counterexample :
    sgx_setup false true true true true true true true =
      (.ok (), [.checkLaunch, .bootstrapLaunch, .markerRemove, .registerCall,
        .configWrite, .markerCreate], true) ∧
    SgxEvent.bootstrapLaunch ∈ (sgx_setup false true true true true true true true).2.1 ∧
    SgxEvent.registerCall ∈ (sgx_setup false true true true true true true true).2.1 := by
  refine ⟨rfl, ?_, ?_⟩ <;> decide

/-- C6 (amended): if the completion marker already exists **and** the
enclave check succeeds, the run performs only the check launch — no
key-generation relaunch and no re-registration — and leaves the marker in
place. -/
theorem C6_bootstrap_idempotent
    (checkOk markerExists autoReg bootstrapOk removeOk registerOk
      configReadOk configWriteOk : Bool)
    (hm : markerExists = true) (hc : checkOk = true) :
    sgx_setup checkOk markerExists autoReg bootstrapOk removeOk registerOk
      configReadOk configWriteOk = (.ok (), [.checkLaunch], true) := by
  subst hm hc
  cases autoReg <;> rfl

/-- Witness for C6 at a fully concrete step outcome vector. -/
theorem C6_witness :
    sgx_setup true true true true true true true true = (.ok (), [.checkLaunch], true) :=
  C6_bootstrap_idempotent true true true true true true true true rfl rfl

/-- C7 counterexample: the enclave check fails (`checkOk = false`, the first
step of the sequence), yet the run does not abort — it re-bootstraps,
re-registers, and completes successfully, creating the completion marker.
So a failure of the enclave-check step does not abort the sequence. -/
theorem C7_counterexample :
    sgx_setup false false true true true true true true =
      (.ok (), [.checkLaunch, .bootstrapLaunch, .registerCall, .configWrite,
        .markerCreate], true) ∧
    SgxEvent.markerCreate ∈ (sgx_setup false false true true true true true true).2.1 := by
  refine ⟨rfl, ?_⟩; decide

/-- C7 (amended): in a run that needs initialization, a failure of the
bootstrap launch, of the stale-marker removal, of the on-chain submission,
or of the config read/write aborts the whole sequence with an error
(conjuncts 3–7), and an aborted run never creates the completion marker
(conjunct 1); the marker is created only on a fully successful run in which
the config write happened (conjunct 2). A failure of the enclave check does
not abort — it only makes the run need initialization. A pre-existing
marker is removed only after a successful bootstrap: a bootstrap failure
performs no marker removal and leaves the marker state as it was
(conjunct 8). -/
theorem C7_failure_aborts
    (checkOk markerExists autoReg bootstrapOk removeOk registerOk
      configReadOk configWriteOk : Bool) :
    ((sgx_setup checkOk markerExists autoReg bootstrapOk removeOk registerOk
        configReadOk configWriteOk).1 = .error () →
      SgxEvent.markerCreate ∉ (sgx_setup checkOk markerExists autoReg bootstrapOk
        removeOk registerOk configReadOk configWriteOk).2.1) ∧
    (SgxEvent.markerCreate ∈ (sgx_setup checkOk markerExists autoReg bootstrapOk
        removeOk registerOk configReadOk configWriteOk).2.1 →
      (sgx_setup checkOk markerExists autoReg bootstrapOk removeOk registerOk
        configReadOk configWriteOk).1 = .ok () ∧
      autoReg = true ∧ bootstrapOk = true ∧ registerOk = true ∧
      configReadOk = true ∧ configWriteOk = true ∧
      SgxEvent.configWrite ∈ (sgx_setup checkOk markerExists autoReg bootstrapOk
        removeOk registerOk configReadOk configWriteOk).2.1) ∧
    ((!checkOk || (autoReg && !markerExists)) = true → bootstrapOk = false →
      (sgx_setup checkOk markerExists autoReg bootstrapOk removeOk registerOk
        configReadOk configWriteOk).1 = .error ()) ∧
    ((!checkOk || (autoReg && !markerExists)) = true → bootstrapOk = true →
      markerExists = true → removeOk = false →
      (sgx_setup checkOk markerExists autoReg bootstrapOk removeOk registerOk
        configReadOk configWriteOk).1 = .error ()) ∧
    ((!checkOk || (autoReg && !markerExists)) = true → bootstrapOk = true →
      (markerExists && !removeOk) = false → autoReg = true →
      registerOk = false →
      (sgx_setup checkOk markerExists autoReg bootstrapOk removeOk registerOk
        configReadOk configWriteOk).1 = .error ()) ∧
    ((!checkOk || (autoReg && !markerExists)) = true → bootstrapOk = true →
      (markerExists && !removeOk) = false → autoReg = true →
      registerOk = true → configReadOk = false →
      (sgx_setup checkOk markerExists autoReg bootstrapOk removeOk registerOk
        configReadOk configWriteOk).1 = .error ()) ∧
    ((!checkOk || (autoReg && !markerExists)) = true → bootstrapOk = true →
      (markerExists && !removeOk) = false → autoReg = true →
      registerOk = true → configReadOk = true → configWriteOk = false →
      (sgx_setup checkOk markerExists autoReg bootstrapOk removeOk registerOk
        configReadOk configWriteOk).1 = .error ()) ∧
    ((!checkOk || (autoReg && !markerExists)) = true → bootstrapOk = false →
      (sgx_setup checkOk markerExists autoReg bootstrapOk removeOk registerOk
        configReadOk configWriteOk).2.2 = markerExists ∧
      SgxEvent.markerRemove ∉ (sgx_setup checkOk markerExists autoReg bootstrapOk
        removeOk registerOk configReadOk configWriteOk).2.1) := by
  refine ⟨?_, ?_, ?_, ?_, ?_, ?_, ?_, ?_⟩ <;>
    (cases checkOk <;> cases markerExists <;> cases autoReg <;> cases bootstrapOk <;>
      cases removeOk <;> cases registerOk <;> cases configReadOk <;>
      cases configWriteOk <;> decide)

/-- Witness for C7: concrete runs that need initialization and fail at the
bootstrap, the stale-marker removal, the on-chain registration, the config
read, and the config write each end in an error (the bootstrap-failure run
creating no marker), and a bootstrap failure with the marker present leaves
it in place without a removal. -/
theorem C7_witness :
    (sgx_setup false false false false true true true true).1 = .error () ∧
    SgxEvent.markerCreate ∉ (sgx_setup false false false false true true true true).2.1 ∧
    (sgx_setup false true false true false true true true).1 = .error () ∧
    (sgx_setup false false true true true false true true).1 = .error () ∧
    (sgx_setup false false true true true true false true).1 = .error () ∧
    (sgx_setup false false true true true true true false).1 = .error () ∧
    (sgx_setup false true true false true true true true).2.2 = true ∧
    SgxEvent.markerRemove ∉ (sgx_setup false true true false true true true true).2.1 :=
  ⟨(C7_failure_aborts false false false false true true true true).2.2.1 rfl rfl,
   (C7_failure_aborts false false false false true true true true).1
     ((C7_failure_aborts false false false false true true true true).2.2.1 rfl rfl),
   (C7_failure_aborts false true false true false true true true).2.2.2.1
     rfl rfl rfl rfl,
   (C7_failure_aborts false false true true true false true true).2.2.2.2.1
     rfl rfl rfl rfl rfl,
   (C7_failure_aborts false false true true true true false true).2.2.2.2.2.1
     rfl rfl rfl rfl rfl rfl,
   (C7_failure_aborts false false true true true true true false).2.2.2.2.2.2.1
     rfl rfl rfl rfl rfl rfl rfl,
   ((C7_failure_aborts false true true false true true true true).2.2.2.2.2.2.2
     rfl rfl).1,
   ((C7_failure_aborts false true true false true true true true).2.2.2.2.2.2.2
     rfl rfl).2⟩

/-- C2 counterexample: a hybrid provider with an empty cached partial-block
map does not fail with a "no data" error — it falls through to the live
source (here answering with an empty batch) and returns its answer. So on
the hybrid provider the claimed "fails iff the cached map is empty" is
false. -/
theorem C2_counterexample :
    (CachedRpcProvider.mk (FileProvider.empty "c") testRpc).cache.partial_blocks = [] ∧
    (CachedRpcProvider.batch_get_partial_blocks
        ⟨FileProvider.empty "c", testRpc⟩ ⟨0⟩).1 = .ok [] := by
  exact ⟨rfl, rfl⟩

/-- C2 (amended): on the file-only provider, `batch_get_partial_blocks`
ignores its query key, fails with the "no data" error exactly when the
cached partial-block map is empty, and otherwise returns all cached partial
blocks. The hybrid provider behaves the same **when its cached map is
non-empty**; when the map is empty it instead makes one live-source call for
the given key and surfaces that call's error, if any, unchanged. -/
theorem C2_batch_ignores_query (fp : FileProvider) (p : CachedRpcProvider)
    (q q' : BlockQuery) :
    fp.batch_get_partial_blocks q = fp.batch_get_partial_blocks q' ∧
    (fp.batch_get_partial_blocks q = .error .noData ↔ fp.partial_blocks = []) ∧
    (fp.partial_blocks ≠ [] →
      fp.batch_get_partial_blocks q = .ok (fp.partial_blocks.map Prod.snd)) ∧
    (p.cache.partial_blocks ≠ [] →
      p.batch_get_partial_blocks q =
        (.ok (p.cache.partial_blocks.map Prod.snd), p.cache, [])) ∧
    (p.cache.partial_blocks = [] →
      (p.batch_get_partial_blocks q).2.2 = [.batchPartialBlocks q] ∧
      ∀ e, p.rpc.batch_partial_blocks q = .error e →
        (p.batch_get_partial_blocks q).1 = .error e) := by
  refine ⟨rfl, ?_, ?_, ?_, ?_⟩
  · by_cases hfp : fp.partial_blocks = [] <;>
      simp [FileProvider.batch_get_partial_blocks, hfp]
  · intro hfp
    simp [FileProvider.batch_get_partial_blocks, hfp]
  · intro hc
    simp [CachedRpcProvider.batch_get_partial_blocks,
      FileProvider.batch_get_partial_blocks, hc]
  · intro hc
    have hcache : p.cache.batch_get_partial_blocks q = .error .noData := by
      simp [FileProvider.batch_get_partial_blocks, hc]
    cases hr : p.rpc.batch_partial_blocks q with
    | error e =>
      refine ⟨?_, ?_⟩
      · simp [CachedRpcProvider.batch_get_partial_blocks, hcache, hr]
      · intro e2 hr2
        injection hr2 with he
        subst he
        simp [CachedRpcProvider.batch_get_partial_blocks, hcache, hr]
    | ok out =>
      refine ⟨?_, ?_⟩
      · cases hbf : backfillPartialBlocks p.cache out <;>
          simp [CachedRpcProvider.batch_get_partial_blocks, hcache, hr, hbf]
      · intro e2 hr2
        exact Except.noConfusion hr2

/-- Witness for C2 at concrete stores: a file provider holding one partial
block answers the batch query with that block for any key, and the hybrid
provider over a non-empty cache serves the batch from cache with no
live-source call. -/
theorem C2_witness :
    ((FileProvider.empty "c").insert_partial_block ⟨9⟩
        ⟨some 9, 0⟩).batch_get_partial_blocks ⟨0⟩ = .ok [⟨some 9, 0⟩] ∧
    CachedRpcProvider.batch_get_partial_blocks
        ⟨(FileProvider.empty "c").insert_partial_block ⟨9⟩ ⟨some 9, 0⟩, testRpc⟩ ⟨0⟩ =
      (.ok [⟨some 9, 0⟩], (FileProvider.empty "c").insert_partial_block ⟨9⟩ ⟨some 9, 0⟩,
        []) :=
  ⟨(C2_batch_ignores_query
      ((FileProvider.empty "c").insert_partial_block ⟨9⟩ ⟨some 9, 0⟩)
      ⟨(FileProvider.empty "c").insert_partial_block ⟨9⟩ ⟨some 9, 0⟩, testRpc⟩
      ⟨0⟩ ⟨1⟩).2.2.1 (by simp [FileProvider.insert_partial_block, btreeInsert,
        FileProvider.empty]),
   (C2_batch_ignores_query
      ((FileProvider.empty "c").insert_partial_block ⟨9⟩ ⟨some 9, 0⟩)
      ⟨(FileProvider.empty "c").insert_partial_block ⟨9⟩ ⟨some 9, 0⟩, testRpc⟩
      ⟨0⟩ ⟨1⟩).2.2.2.1 (by simp [FileProvider.insert_partial_block, btreeInsert,
        FileProvider.empty])⟩

/-- C3 counterexample: the file-only constructor `new_file_provider`
propagates the read error of a nonexistent cache file instead of falling
back to an empty cache store, so "provider construction is never fatal on a
missing/corrupt cache file" fails for the file-only provider. -/
theorem C3_counterexample :
    new_file_provider (fun _ => none) "cache.gz" = .error .ioErr := rfl

/-- C3 (amended): the hybrid provider's construction falls back to an empty
cache store when the cache file is nonexistent or corrupt; the file-only
constructor instead propagates the read error. -/
theorem C3_construction_fallback (disk : Disk) (path : String) (rpc : RpcProvider)
    (h : disk path = none ∨ disk path = some .corrupt) :
    CachedRpcProvider.new disk path (.ok rpc) = .ok ⟨FileProvider.empty path, rpc⟩ ∧
    ∃ e, new_file_provider disk path = .error e := by
  rcases h with h | h
  · exact ⟨by simp [CachedRpcProvider.new, FileProvider.read_from_file, h],
      ⟨.ioErr, by simp [new_file_provider, FileProvider.read_from_file, h]⟩⟩
  · exact ⟨by simp [CachedRpcProvider.new, FileProvider.read_from_file, h],
      ⟨.deserErr, by simp [new_file_provider, FileProvider.read_from_file, h]⟩⟩

/-- Witness for C3 on a disk with no file at the cache path. -/
theorem C3_witness :
    CachedRpcProvider.new (fun _ => none) "p" (.ok testRpc) =
      .ok ⟨FileProvider.empty "p", testRpc⟩ ∧
    ∃ e, new_file_provider (fun _ => none) "p" = .error e :=
  C3_construction_fallback (fun _ => none) "p" testRpc (Or.inl rfl)

/-- C4 counterexample: after an insert, a successful `save()` (the write to
the cache path does happen) leaves the dirty flag set — `save` takes the
store by shared reference and never clears the flag, so the claimed
"successful save clears dirty" is false. -/
theorem C4_counterexample :
    ((((FileProvider.empty "p").insert_balance ⟨0, 0⟩ 5).save (fun _ => none)).2 "p" =
      some (.valid (((FileProvider.empty "p").insert_balance ⟨0, 0⟩ 5).serialize))) ∧
    ((((FileProvider.empty "p").insert_balance ⟨0, 0⟩ 5).save (fun _ => none)).1.dirty =
      true) := by
  exact ⟨rfl, rfl⟩

/-- C4 (amended): every insert operation sets the dirty flag; `save` is a
no-op on storage when the flag is clear and never modifies the in-memory
store (in particular it never clears the flag); a freshly loaded cache is
clean, so saving it writes nothing. -/
theorem C4_dirty_discipline :
    (∀ (p : FileProvider) (op : InsertOp), (applyInsert p op).dirty = true) ∧
    (∀ (p : FileProvider) (path : String) (disk : Disk), p.dirty = false →
      p.save_to_file path disk = (p, disk)) ∧
    (∀ (p : FileProvider) (disk : Disk), (p.save disk).1 = p) ∧
    (∀ (disk : Disk) (path : String) (p : FileProvider),
      FileProvider.read_from_file disk path = .ok p →
      p.dirty = false ∧ ∀ disk2 : Disk, p.save disk2 = (p, disk2)) := by
  refine ⟨applyInsert_dirty, ?_, ?_, ?_⟩
  · intro p path disk hclean
    simp [FileProvider.save_to_file, hclean]
  · intro p disk
    by_cases hd : p.dirty <;> simp [FileProvider.save, FileProvider.save_to_file, hd]
  · intro disk path p hread
    unfold FileProvider.read_from_file at hread
    cases hd : disk path with
    | none => rw [hd] at hread; exact Except.noConfusion hread
    | some c =>
      cases c with
      | corrupt => rw [hd] at hread; exact Except.noConfusion hread
      | valid out =>
        rw [hd] at hread
        injection hread with hp
        subst hp
        exact ⟨rfl, fun disk2 => by
          simp [FileProvider.save, FileProvider.save_to_file]⟩

/-- Witness for C4: a concrete insert sets the flag; a clean store saves
without writing; a store loaded from a valid cache file is clean and its
save writes nothing. -/
theorem C4_witness :
    (applyInsert (FileProvider.empty "p") (.balanceIns ⟨0, 0⟩ 5)).dirty = true ∧
    (FileProvider.empty "p").save_to_file "p" (fun _ => none) =
      (FileProvider.empty "p", (fun _ => none : Disk)) ∧
    ((FileProvider.empty "p").save (fun _ => none)).1 = FileProvider.empty "p" ∧
    (FileProvider.empty "q").dirty = false ∧
    (∀ disk2 : Disk, (FileProvider.empty "q").save disk2 = (FileProvider.empty "q", disk2)) :=
  ⟨C4_dirty_discipline.1 (FileProvider.empty "p") (.balanceIns ⟨0, 0⟩ 5),
   C4_dirty_discipline.2.1 (FileProvider.empty "p") "p" (fun _ => none) rfl,
   C4_dirty_discipline.2.2.1 (FileProvider.empty "p") (fun _ => none),
   (C4_dirty_discipline.2.2.2 (fun _ => some (.valid (FileProvider.empty "")))
      "q" (FileProvider.empty "q") rfl).1,
   (C4_dirty_discipline.2.2.2 (fun _ => some (.valid (FileProvider.empty "")))
      "q" (FileProvider.empty "q") rfl).2⟩

/-- C5: for any nonempty sequence of inserts into a cache store, `save()`
leaves the in-memory store unchanged, and reloading from the written file
yields the same store (with a clean flag), hence identical answers on every
query operation — in particular on every previously inserted key. -/
theorem C5_round_trip (fp : FileProvider) (ops : List InsertOp) (disk : Disk)
    (h : ops ≠ []) :
    ((applyInserts fp ops).save disk).1 = applyInserts fp ops ∧
    FileProvider.read_from_file ((applyInserts fp ops).save disk).2
        (applyInserts fp ops).file_path =
      .ok { applyInserts fp ops with dirty := false } ∧
    (∀ q, FileProvider.get_full_block { applyInserts fp ops with dirty := false } q =
      (applyInserts fp ops).get_full_block q) ∧
    (∀ q, FileProvider.get_partial_block { applyInserts fp ops with dirty := false } q =
      (applyInserts fp ops).get_partial_block q) ∧
    (∀ q, FileProvider.get_proof { applyInserts fp ops with dirty := false } q =
      (applyInserts fp ops).get_proof q) ∧
    (∀ q, FileProvider.get_transaction_count
        { applyInserts fp ops with dirty := false } q =
      (applyInserts fp ops).get_transaction_count q) ∧
    (∀ q, FileProvider.get_balance { applyInserts fp ops with dirty := false } q =
      (applyInserts fp ops).get_balance q) ∧
    (∀ q, FileProvider.get_code { applyInserts fp ops with dirty := false } q =
      (applyInserts fp ops).get_code q) ∧
    (∀ q, FileProvider.get_storage { applyInserts fp ops with dirty := false } q =
      (applyInserts fp ops).get_storage q) ∧
    (∀ q, FileProvider.get_propose { applyInserts fp ops with dirty := false } q =
      (applyInserts fp ops).get_propose q) ∧
    (∀ i, FileProvider.get_blob_data { applyInserts fp ops with dirty := false } i =
      (applyInserts fp ops).get_blob_data i) := by
  have hd : (applyInserts fp ops).dirty = true := applyInserts_dirty fp ops h
  refine ⟨?_, ?_, fun q => rfl, fun q => rfl, fun q => rfl, fun q => rfl, fun q => rfl,
    fun q => rfl, fun q => rfl, fun q => rfl, fun i => rfl⟩
  · simp [FileProvider.save, FileProvider.save_to_file, hd]
  · have hsave : ((applyInserts fp ops).save disk).2 =
        Disk.write disk (applyInserts fp ops).file_path
          (.valid (applyInserts fp ops).serialize) := by
      simp [FileProvider.save, FileProvider.save_to_file, hd]
    rw [hsave]
    unfold FileProvider.read_from_file Disk.write
    simp only [if_pos]
    obtain ⟨a0, a1, a2, a3, a4, a5, a6, a7, a8, a9, a10⟩ := applyInserts fp ops
    rfl

/-- Witness for C5: a single concrete insert, saved to an initially empty
disk and reloaded. -/
theorem C5_witness :
    ((applyInserts (FileProvider.empty "p") [.balanceIns ⟨1, 2⟩ 3]).save
        (fun _ => none)).1 =
      applyInserts (FileProvider.empty "p") [.balanceIns ⟨1, 2⟩ 3] ∧
    FileProvider.read_from_file
        ((applyInserts (FileProvider.empty "p") [.balanceIns ⟨1, 2⟩ 3]).save
          (fun _ => none)).2
        (applyInserts (FileProvider.empty "p") [.balanceIns ⟨1, 2⟩ 3]).file_path =
      .ok { applyInserts (FileProvider.empty "p") [.balanceIns ⟨1, 2⟩ 3] with
        dirty := false } :=
  ⟨(C5_round_trip (FileProvider.empty "p") [.balanceIns ⟨1, 2⟩ 3] (fun _ => none)
      (List.cons_ne_nil _ _)).1,
   (C5_round_trip (FileProvider.empty "p") [.balanceIns ⟨1, 2⟩ 3] (fun _ => none)
      (List.cons_ne_nil _ _)).2.1⟩

/-- C1: for every query operation of the hybrid provider — on a cache hit
the stored value is returned with the cache unchanged and no live-source
call; on a cache miss whose live fetch succeeds, exactly one live-source
call for the same key is made, the result is inserted into the cache
(setting the dirty flag) and returned, and a second lookup of the same key
on the resulting provider makes zero further live-source calls. -/
theorem C1_hybrid_read_through (p : CachedRpcProvider) :
    (∀ q v, alistGet p.cache.full_blocks q = some v →
      p.get_full_block q = (.ok v, p.cache, [])) ∧
    (∀ q v, alistGet p.cache.full_blocks q = none → p.rpc.full_block q = .ok v →
      p.get_full_block q = (.ok v, p.cache.insert_full_block q v, [.fullBlock q]) ∧
      (p.cache.insert_full_block q v).dirty = true ∧
      CachedRpcProvider.get_full_block ⟨p.cache.insert_full_block q v, p.rpc⟩ q =
        (.ok v, p.cache.insert_full_block q v, [])) ∧
    (∀ q v, alistGet p.cache.partial_blocks q = some v →
      p.get_partial_block q = (.ok v, p.cache, [])) ∧
    (∀ q v, alistGet p.cache.partial_blocks q = none → p.rpc.partial_block q = .ok v →
      p.get_partial_block q =
        (.ok v, p.cache.insert_partial_block q v, [.partialBlock q]) ∧
      (p.cache.insert_partial_block q v).dirty = true ∧
      CachedRpcProvider.get_partial_block ⟨p.cache.insert_partial_block q v, p.rpc⟩ q =
        (.ok v, p.cache.insert_partial_block q v, [])) ∧
    (∀ q v, alistGet p.cache.proofs q = some v →
      p.get_proof q = (.ok v, p.cache, [])) ∧
    (∀ q v, alistGet p.cache.proofs q = none → p.rpc.proof q = .ok v →
      p.get_proof q = (.ok v, p.cache.insert_proof q v, [.proofCall q]) ∧
      (p.cache.insert_proof q v).dirty = true ∧
      CachedRpcProvider.get_proof ⟨p.cache.insert_proof q v, p.rpc⟩ q =
        (.ok v, p.cache.insert_proof q v, [])) ∧
    (∀ q v, alistGet p.cache.transaction_count q = some v →
      p.get_transaction_count q = (.ok v, p.cache, [])) ∧
    (∀ q v, alistGet p.cache.transaction_count q = none →
        p.rpc.transaction_count q = .ok v →
      p.get_transaction_count q =
        (.ok v, p.cache.insert_transaction_count q v, [.txCount q]) ∧
      (p.cache.insert_transaction_count q v).dirty = true ∧
      CachedRpcProvider.get_transaction_count
          ⟨p.cache.insert_transaction_count q v, p.rpc⟩ q =
        (.ok v, p.cache.insert_transaction_count q v, [])) ∧
    (∀ q v, alistGet p.cache.balance q = some v →
      p.get_balance q = (.ok v, p.cache, [])) ∧
    (∀ q v, alistGet p.cache.balance q = none → p.rpc.balance q = .ok v →
      p.get_balance q = (.ok v, p.cache.insert_balance q v, [.balanceCall q]) ∧
      (p.cache.insert_balance q v).dirty = true ∧
      CachedRpcProvider.get_balance ⟨p.cache.insert_balance q v, p.rpc⟩ q =
        (.ok v, p.cache.insert_balance q v, [])) ∧
    (∀ q v, alistGet p.cache.code q = some v →
      p.get_code q = (.ok v, p.cache, [])) ∧
    (∀ q v, alistGet p.cache.code q = none → p.rpc.code q = .ok v →
      p.get_code q = (.ok v, p.cache.insert_code q v, [.codeCall q]) ∧
      (p.cache.insert_code q v).dirty = true ∧
      CachedRpcProvider.get_code ⟨p.cache.insert_code q v, p.rpc⟩ q =
        (.ok v, p.cache.insert_code q v, [])) ∧
    (∀ q v, alistGet p.cache.storage q = some v →
      p.get_storage q = (.ok v, p.cache, [])) ∧
    (∀ q v, alistGet p.cache.storage q = none → p.rpc.storage q = .ok v →
      p.get_storage q = (.ok v, p.cache.insert_storage q v, [.storageCall q]) ∧
      (p.cache.insert_storage q v).dirty = true ∧
      CachedRpcProvider.get_storage ⟨p.cache.insert_storage q v, p.rpc⟩ q =
        (.ok v, p.cache.insert_storage q v, [])) ∧
    (∀ q v, p.cache.propose = some v →
      p.get_propose q = (.ok v, p.cache, [])) ∧
    (∀ q v, p.cache.propose = none → p.rpc.propose q = .ok v →
      p.get_propose q = (.ok v, p.cache.insert_propose q v, [.proposeCall q]) ∧
      (p.cache.insert_propose q v).dirty = true ∧
      CachedRpcProvider.get_propose ⟨p.cache.insert_propose q v, p.rpc⟩ q =
        (.ok v, p.cache.insert_propose q v, [])) ∧
    (∀ i v, alistGet p.cache.blobs i = some v →
      p.get_blob_data i = (.ok v, p.cache, [])) ∧
    (∀ i v, alistGet p.cache.blobs i = none → p.rpc.blob_data i = .ok v →
      p.get_blob_data i = (.ok v, p.cache.insert_blob i v, [.blobData i]) ∧
      (p.cache.insert_blob i v).dirty = true ∧
      CachedRpcProvider.get_blob_data ⟨p.cache.insert_blob i v, p.rpc⟩ i =
        (.ok v, p.cache.insert_blob i v, [])) := by
  refine ⟨?_, ?_, ?_, ?_, ?_, ?_, ?_, ?_, ?_, ?_, ?_, ?_, ?_, ?_, ?_, ?_, ?_, ?_⟩
  · intro q v hq
    simp [CachedRpcProvider.get_full_block, FileProvider.get_full_block, hq]
  · intro q v hq hr
    refine ⟨?_, rfl, ?_⟩
    · simp [CachedRpcProvider.get_full_block, FileProvider.get_full_block, hq, hr]
    · simp [CachedRpcProvider.get_full_block, FileProvider.get_full_block,
        FileProvider.insert_full_block, alistGet_insert_self]
  · intro q v hq
    simp [CachedRpcProvider.get_partial_block, FileProvider.get_partial_block, hq]
  · intro q v hq hr
    refine ⟨?_, rfl, ?_⟩
    · simp [CachedRpcProvider.get_partial_block, FileProvider.get_partial_block, hq, hr]
    · simp [CachedRpcProvider.get_partial_block, FileProvider.get_partial_block,
        FileProvider.insert_partial_block, alistGet_btreeInsert_self]
  · intro q v hq
    simp [CachedRpcProvider.get_proof, FileProvider.get_proof, hq]
  · intro q v hq hr
    refine ⟨?_, rfl, ?_⟩
    · simp [CachedRpcProvider.get_proof, FileProvider.get_proof, hq, hr]
    · simp [CachedRpcProvider.get_proof, FileProvider.get_proof,
        FileProvider.insert_proof, alistGet_insert_self]
  · intro q v hq
    simp [CachedRpcProvider.get_transaction_count,
      FileProvider.get_transaction_count, hq]
  · intro q v hq hr
    refine ⟨?_, rfl, ?_⟩
    · simp [CachedRpcProvider.get_transaction_count,
        FileProvider.get_transaction_count, hq, hr]
    · simp [CachedRpcProvider.get_transaction_count,
        FileProvider.get_transaction_count,
        FileProvider.insert_transaction_count, alistGet_insert_self]
  · intro q v hq
    simp [CachedRpcProvider.get_balance, FileProvider.get_balance, hq]
  · intro q v hq hr
    refine ⟨?_, rfl, ?_⟩
    · simp [CachedRpcProvider.get_balance, FileProvider.get_balance, hq, hr]
    · simp [CachedRpcProvider.get_balance, FileProvider.get_balance,
        FileProvider.insert_balance, alistGet_insert_self]
  · intro q v hq
    simp [CachedRpcProvider.get_code, FileProvider.get_code, hq]
  · intro q v hq hr
    refine ⟨?_, rfl, ?_⟩
    · simp [CachedRpcProvider.get_code, FileProvider.get_code, hq, hr]
    · simp [CachedRpcProvider.get_code, FileProvider.get_code,
        FileProvider.insert_code, alistGet_insert_self]
  · intro q v hq
    simp [CachedRpcProvider.get_storage, FileProvider.get_storage, hq]
  · intro q v hq hr
    refine ⟨?_, rfl, ?_⟩
    · simp [CachedRpcProvider.get_storage, FileProvider.get_storage, hq, hr]
    · simp [CachedRpcProvider.get_storage, FileProvider.get_storage,
        FileProvider.insert_storage, alistGet_insert_self]
  · intro q v hq
    simp [CachedRpcProvider.get_propose, FileProvider.get_propose, hq]
  · intro q v hq hr
    refine ⟨?_, rfl, ?_⟩
    · simp [CachedRpcProvider.get_propose, FileProvider.get_propose, hq, hr]
    · simp [CachedRpcProvider.get_propose, FileProvider.get_propose,
        FileProvider.insert_propose]
  · intro i v hq
    simp [CachedRpcProvider.get_blob_data, FileProvider.get_blob_data, hq]
  · intro i v hq hr
    refine ⟨?_, rfl, ?_⟩
    · simp [CachedRpcProvider.get_blob_data, FileProvider.get_blob_data, hq, hr]
    · simp [CachedRpcProvider.get_blob_data, FileProvider.get_blob_data,
        FileProvider.insert_blob, alistGet_insert_self]

/-- Hybrid provider over an empty cache and the concrete test live source. -/
def testHybrid : CachedRpcProvider := ⟨FileProvider.empty "c", testRpc⟩

/-- Witness for C1: on the empty-cache hybrid provider, each of the nine
query operations misses, makes its single live call, and back-fills the
cache; a hit on a pre-filled cache returns the stored value with no call. -/
theorem C1_witness :
    testHybrid.get_full_block ⟨3⟩ =
      (.ok 100, (FileProvider.empty "c").insert_full_block ⟨3⟩ 100, [.fullBlock ⟨3⟩]) ∧
    testHybrid.get_partial_block ⟨3⟩ =
      (.ok ⟨some 3, 5⟩, (FileProvider.empty "c").insert_partial_block ⟨3⟩ ⟨some 3, 5⟩,
        [.partialBlock ⟨3⟩]) ∧
    testHybrid.get_proof ⟨1, 2, ∅⟩ =
      (.ok 7, (FileProvider.empty "c").insert_proof ⟨1, 2, ∅⟩ 7, [.proofCall ⟨1, 2, ∅⟩]) ∧
    testHybrid.get_transaction_count ⟨1, 2⟩ =
      (.ok 3, (FileProvider.empty "c").insert_transaction_count ⟨1, 2⟩ 3,
        [.txCount ⟨1, 2⟩]) ∧
    testHybrid.get_balance ⟨1, 2⟩ =
      (.ok 4, (FileProvider.empty "c").insert_balance ⟨1, 2⟩ 4, [.balanceCall ⟨1, 2⟩]) ∧
    testHybrid.get_code ⟨1, 2⟩ =
      (.ok 6, (FileProvider.empty "c").insert_code ⟨1, 2⟩ 6, [.codeCall ⟨1, 2⟩]) ∧
    testHybrid.get_storage ⟨1, 2, 3⟩ =
      (.ok 8, (FileProvider.empty "c").insert_storage ⟨1, 2, 3⟩ 8,
        [.storageCall ⟨1, 2, 3⟩]) ∧
    testHybrid.get_propose ⟨1, 2, 3⟩ =
      (.ok (1, 2), (FileProvider.empty "c").insert_propose ⟨1, 2, 3⟩ (1, 2),
        [.proposeCall ⟨1, 2, 3⟩]) ∧
    testHybrid.get_blob_data 3 =
      (.ok 9, (FileProvider.empty "c").insert_blob 3 9, [.blobData 3]) ∧
    CachedRpcProvider.get_balance
        ⟨(FileProvider.empty "c").insert_balance ⟨1, 2⟩ 4, testRpc⟩ ⟨1, 2⟩ =
      (.ok 4, (FileProvider.empty "c").insert_balance ⟨1, 2⟩ 4, []) := by
  obtain ⟨_, h1, _, h2, _, h3, _, h4, _, h5, _, h6, _, h7, _, h8, _, h9⟩ :=
    C1_hybrid_read_through testHybrid
  exact ⟨(h1 ⟨3⟩ 100 rfl rfl).1, (h2 ⟨3⟩ ⟨some 3, 5⟩ rfl rfl).1,
    (h3 ⟨1, 2, ∅⟩ 7 rfl rfl).1, (h4 ⟨1, 2⟩ 3 rfl rfl).1, (h5 ⟨1, 2⟩ 4 rfl rfl).1,
    (h6 ⟨1, 2⟩ 6 rfl rfl).1, (h7 ⟨1, 2, 3⟩ 8 rfl rfl).1, (h8 ⟨1, 2, 3⟩ (1, 2) rfl rfl).1,
    (h9 3 9 rfl rfl).1, (h5 ⟨1, 2⟩ 4 rfl rfl).2.2⟩

/-- A partial request whose `network` is present but unparsable while
`l1_network` (a later field) is missing. -/
def c9opt : ProofRequestOpt :=
  { block_number := some 1, rpc := some "r", l1_rpc := some "l",
    beacon_rpc := some "b", network := some "garbage", l1_network := none,
    graffiti := none, prover := none, proof_type := none,
    prover_args := ⟨none, none, none, none⟩ }

/-- C9 counterexample: `c9opt` is missing the required `l1_network` field
(its first missing field), yet conversion fails naming the earlier,
present-but-unparsable `network` field instead — so "otherwise it fails
naming the first missing field" is false as stated. -/
theorem C9_counterexample :
    c9opt.l1_network = none ∧
    ProofRequest.try_from (fun _ => none) (fun _ => none) (fun _ => none) c9opt =
      .error (.invalidRequestConfig "Invalid network") ∧
    ProofRequest.try_from (fun _ => none) (fun _ => none) (fun _ => none) c9opt ≠
      .error (.invalidRequestConfig "Missing l1_network") := by
  refine ⟨rfl, rfl, ?_⟩
  decide

/-- C9 (amended): conversion succeeds only when every required field is
present; on failure it names the first problematic field in declaration
order — the first missing field, unless an earlier present field fails to
parse, in which case that field is named as invalid; in particular, a
merged configuration that never supplies `block_number` fails naming
block number as missing. -/
theorem C9_missing_field (pn pg pp : String → Option Nat) (v : ProofRequestOpt) :
    (∀ r, ProofRequest.try_from pn pg pp v = .ok r →
      v.block_number.isSome ∧ v.rpc.isSome ∧ v.l1_rpc.isSome ∧
      v.beacon_rpc.isSome ∧ v.network.isSome ∧ v.l1_network.isSome ∧
      v.graffiti.isSome ∧ v.prover.isSome ∧ v.proof_type.isSome) ∧
    (∀ e, ProofRequest.try_from pn pg pp v = .error e ↔
      specFirstProblem pn pg pp v = some e) ∧
    (v.block_number = none →
      ProofRequest.try_from pn pg pp v =
        .error (.invalidRequestConfig "Missing block number")) := by
  obtain ⟨bn, rpc, l1, bc, nw, l1n, gf, pv, pt, pa⟩ := v
  cases bn with
  | none =>
    simp [ProofRequest.try_from, tryOp, specFirstProblem, probe, orMissing, orInvalid]
  | some b =>
  cases rpc with
  | none =>
    simp [ProofRequest.try_from, tryOp, specFirstProblem, probe, orMissing, orInvalid]
  | some r =>
  cases l1 with
  | none =>
    simp [ProofRequest.try_from, tryOp, specFirstProblem, probe, orMissing, orInvalid]
  | some lr =>
  cases bc with
  | none =>
    simp [ProofRequest.try_from, tryOp, specFirstProblem, probe, orMissing, orInvalid]
  | some br =>
  cases nw with
  | none =>
    simp [ProofRequest.try_from, tryOp, specFirstProblem, probe, orMissing, orInvalid]
  | some ns =>
  cases hpn : pn ns with
  | none =>
    simp [ProofRequest.try_from, tryOp, specFirstProblem, probe, orMissing, orInvalid, hpn]
  | some n =>
  cases l1n with
  | none =>
    simp [ProofRequest.try_from, tryOp, specFirstProblem, probe, orMissing, orInvalid, hpn]
  | some l1s =>
  cases gf with
  | none =>
    simp [ProofRequest.try_from, tryOp, specFirstProblem, probe, orMissing, orInvalid, hpn]
  | some gs =>
  cases hpg : pg gs with
  | none =>
    simp [ProofRequest.try_from, tryOp, specFirstProblem, probe, orMissing, orInvalid, hpn, hpg]
  | some g =>
  cases pv with
  | none =>
    simp [ProofRequest.try_from, tryOp, specFirstProblem, probe, orMissing, orInvalid, hpn, hpg]
  | some vs =>
  cases hpp : pp vs with
  | none =>
    simp [ProofRequest.try_from, tryOp, specFirstProblem, probe, orMissing, orInvalid, hpn, hpg, hpp]
  | some pr =>
  cases pt with
  | none =>
    simp [ProofRequest.try_from, tryOp, specFirstProblem, probe, orMissing, orInvalid, hpn, hpg, hpp]
  | some ts =>
  cases hts : ProofType.from_str ts with
  | error e0 =>
    simp [ProofRequest.try_from, tryOp, specFirstProblem, probe, orMissing, orInvalid, hpn, hpg, hpp, hts]
  | ok t =>
    simp [ProofRequest.try_from, tryOp, specFirstProblem, probe, orMissing, orInvalid, hpn, hpg, hpp, hts]

/-- Witness for C9: a fully populated configuration converts successfully
(every field reported present), and one that never supplies `block_number`
fails naming block number. -/
theorem C9_witness :
    (({ block_number := some 1, rpc := some "r", l1_rpc := some "l",
        beacon_rpc := some "b", network := some "n", l1_network := some "m",
        graffiti := some "g", prover := some "p", proof_type := some "sgx",
        prover_args := ⟨none, none, none, none⟩ } : ProofRequestOpt).block_number.isSome ∧
      (some "r" : Option String).isSome ∧ (some "l" : Option String).isSome ∧
      (some "b" : Option String).isSome ∧ (some "n" : Option String).isSome ∧
      (some "m" : Option String).isSome ∧ (some "g" : Option String).isSome ∧
      (some "p" : Option String).isSome ∧ (some "sgx" : Option String).isSome) ∧
    ProofRequest.try_from (fun _ => some 0) (fun _ => some 0) (fun _ => some 0)
      { block_number := none, rpc := some "r", l1_rpc := some "l",
        beacon_rpc := some "b", network := some "n", l1_network := some "m",
        graffiti := some "g", prover := some "p", proof_type := some "sgx",
        prover_args := ⟨none, none, none, none⟩ } =
      .error (.invalidRequestConfig "Missing block number") :=
  ⟨(C9_missing_field (fun _ => some 0) (fun _ => some 0) (fun _ => some 0)
      { block_number := some 1, rpc := some "r", l1_rpc := some "l",
        beacon_rpc := some "b", network := some "n", l1_network := some "m",
        graffiti := some "g", prover := some "p", proof_type := some "sgx",
        prover_args := ⟨none, none, none, none⟩ }).1
      { block_number := 1, rpc := "r", l1_rpc := "l", beacon_rpc := "b",
        network := 0, l1_network := "m", graffiti := 0, prover := 0,
        proof_type := .Sgx, prover_args := [] } rfl,
   (C9_missing_field (fun _ => some 0) (fun _ => some 0) (fun _ => some 0)
      { block_number := none, rpc := some "r", l1_rpc := some "l",
        beacon_rpc := some "b", network := some "n", l1_network := some "m",
        graffiti := some "g", prover := some "p", proof_type := some "sgx",
        prover_args := ⟨none, none, none, none⟩ }).2.2 rfl⟩

end Raiko
